import Mathlib

/- Shallow embedding of the world-map application.

   The program is a React application with three source units:
   - App (src/unnamed/part_000): session state (selected country ids, city
     markers, pending city input, five style values) and its event handlers
     (handleToggleCountry, handleAddCity, removeCity, the style setters and
     the clear-all button).
   - MapView (src/unnamed/part_001): geometry load with Antarctica filtering,
     the d3 equirectangular projection, the scene-building render effect, the
     d3 zoom transform stored on the svg element, and exportToPng.
   - CountrySelector (src/components/CountrySelector.tsx): the selectable
     country list built from the same geometry source with the same
     Antarctica filter, localized names and a locale-aware sort.

   State updates are modelled as pure functions on explicit state records;
   machine floats are modelled as exact rationals (the d3 equirectangular
   projection uses scale width / (2 * pi) and radians lng * pi / 180, so pi
   cancels and the pixel coordinates are rational in the degree inputs). -/

/-- Runtime JSON values. The location-resolution service response text is fed
to JSON.parse; TypeScript annotations are erased at runtime, so the parsed
value stored in the city list can have any shape. -/
inductive Json where
  | null : Json
  | bool (b : Bool) : Json
  | num (q : ℚ) : Json
  | str (s : String) : Json
  | arr (elems : List Json) : Json
  | obj (fields : List (String × Json)) : Json

/-- Property access on a parsed JSON value: defined on objects, undefined
elsewhere, mirroring JavaScript property lookup. -/
def Json.get : Json → String → Option Json
  | .obj fields, key => fields.lookup key
  | _, _ => none

/-- Whether an optional JSON value is present and numeric. -/
def isNumericJson : Option Json → Bool
  | some (.num _) => true
  | _ => false

/-- Whether a parsed service result carries both a numeric lat and a numeric
lng field. -/
def hasNumericLatLng (j : Json) : Bool :=
  isNumericJson (j.get "lat") && isNumericJson (j.get "lng")

/-- Session state owned by App: the selection set, the ordered city marker
list (raw parsed JSON at runtime), the pending input, the busy flag of the
location-resolution call, and the five style values. -/
structure AppState where
  selectedCountryIds : Finset String
  cities : List Json
  cityInput : String
  isLocating : Bool
  countryColor : String
  cityColor : String
  textColor : String
  fontFamily : String
  fontSize : Int

/-- App.handleToggleCountry: copy the selection set, then delete the id if
present, insert it otherwise. -/
def handleToggleCountry (s : AppState) (id : String) : AppState :=
  { s with selectedCountryIds :=
      if id ∈ s.selectedCountryIds then s.selectedCountryIds.erase id
      else insert id s.selectedCountryIds }

/-- Whitespace trimming of the submit guard, mirroring the JavaScript
String.prototype.trim call on the input: drop whitespace from both ends.
Implemented by structural recursion over the character list so that concrete
states evaluate inside proofs. -/
def jsTrim (s : String) : String :=
  ⟨((s.data.dropWhile Char.isWhitespace).reverse.dropWhile Char.isWhitespace).reverse⟩

/-- App.handleAddCity. The argument is the joint outcome of the
location-resolution call and JSON.parse on its response text: ok carries the
parsed value, error covers a service throw or a parse throw. The guard
returns unchanged when the trimmed input is empty or a call is in flight.
On success the parsed result is appended as-is and the input cleared; on
failure an alert is shown (the returned flag) and state is left untouched.
The isLocating flag is set for the duration of the call and reset in the
finally block, so it is false again in both final states. -/
def handleAddCity (s : AppState) (response : Except Unit Json) : AppState × Bool :=
  if jsTrim s.cityInput == "" || s.isLocating then (s, false)
  else
    match response with
    | .ok result =>
        ({ s with cities := s.cities ++ [result], cityInput := "", isLocating := false }, false)
    | .error _ =>
        ({ s with isLocating := false }, true)

/-- Filter-with-index used by App.removeCity: keep the elements whose
position differs from the given index. -/
def removeIndex (l : List Json) (index : Nat) : List Json :=
  (l.enum.filter (fun p => p.1 != index)).map Prod.snd

/-- App.removeCity: drop the city at the given position. -/
def removeCity (s : AppState) (index : Nat) : AppState :=
  { s with cities := removeIndex s.cities index }

/-- App onChange handler of the country color input. -/
def setCountryColor (s : AppState) (v : String) : AppState :=
  { s with countryColor := v }

/-- App onChange handler of the city marker color input. -/
def setCityColor (s : AppState) (v : String) : AppState :=
  { s with cityColor := v }

/-- App onChange handler of the label text color input. -/
def setTextColor (s : AppState) (v : String) : AppState :=
  { s with textColor := v }

/-- App onChange handler of the font-family select. -/
def setFontFamily (s : AppState) (v : String) : AppState :=
  { s with fontFamily := v }

/-- App onChange handler of the font-size range input. -/
def setFontSize (s : AppState) (v : Int) : AppState :=
  { s with fontSize := v }

/-- App clear-all button onClick: reset the selection set and the city list
in one step. -/
def clearAll (s : AppState) : AppState :=
  { s with selectedCountryIds := ∅, cities := [] }

/-- A geometry feature as consumed by both data-load effects: its stable id
code and its source display name. -/
structure MapFeature where
  id : String
  name : String
deriving DecidableEq

/-- MapView data-load effect, the feature index construction step: drop every
feature whose id is the Antarctica code or whose name is Antarctica. -/
def filterWorldFeatures (features : List MapFeature) : List MapFeature :=
  features.filter (fun f => !(f.id == "010") && !(f.name == "Antarctica"))

/-- Horizontal pixel coordinate of the d3 equirectangular projection with
scale width / (2 * pi) and translate width / 2: the scale times the radian
longitude is width * lng / 360. -/
def projectX (width lng : ℚ) : ℚ :=
  width / 2 + width / 360 * lng

/-- Vertical pixel coordinate of the same projection with translate
height / 2 + height * 0.1 (the 10 percent downward bias compensating the
Antarctica exclusion); y decreases with the radian latitude times the scale,
which is width * lat / 360. -/
def projectY (width height lat : ℚ) : ℚ :=
  height / 2 + height / 10 - width / 360 * lat

/-- The config prop assembled by App for MapView. -/
structure MapConfig where
  countryColor : String
  cityPointColor : String
  textColor : String
  fontFamily : String
  fontSize : Int
deriving DecidableEq

/-- The props MapView receives from App. -/
structure MapViewProps where
  selectedCountryIds : Finset String
  cities : List Json
  config : MapConfig

/-- How App wires its session state into MapView props. -/
def mkProps (s : AppState) : MapViewProps :=
  { selectedCountryIds := s.selectedCountryIds,
    cities := s.cities,
    config := { countryColor := s.countryColor, cityPointColor := s.cityColor,
                textColor := s.textColor, fontFamily := s.fontFamily,
                fontSize := s.fontSize } }

/-- The oversized background rectangle of the scene. -/
structure BackgroundRect where
  x : ℚ
  y : ℚ
  w : ℚ
  h : ℚ
  fill : String

/-- One country path of the scene: its feature id and fill color. -/
structure CountryPath where
  id : String
  fill : String

/-- One city marker dot of the scene. -/
structure CityCircle where
  cx : ℚ
  cy : ℚ
  fill : String

/-- One city label of the scene: the bold name line and the optional note
line below it. -/
structure CityLabel where
  x : ℚ
  y : ℚ
  text : String
  fill : String
  fontFamily : String
  fontSize : Int
  noteLine : Option String

/-- The vector scene built by the render effect, back to front: background
rectangle, country paths, city circles, city labels. -/
structure Scene where
  background : BackgroundRect
  countries : List CountryPath
  circles : List CityCircle
  labels : List CityLabel

/-- Projected position of a city datum, mirroring
projection([d.lng, d.lat]) with the zero fallback when the fields are not
numeric coordinates. -/
def cityPoint (width height : ℚ) (c : Json) : ℚ × ℚ :=
  match c.get "lng", c.get "lat" with
  | some (.num lng), some (.num lat) => (projectX width lng, projectY width height lat)
  | _, _ => (0, 0)

/-- The name text of a city datum, empty when absent. -/
def cityName (c : Json) : String :=
  match c.get "name" with
  | some (.str s) => s
  | _ => ""

/-- The optional note text of a city datum. -/
def cityNote (c : Json) : Option String :=
  match c.get "note" with
  | some (.str s) => some s
  | _ => none

/-- Scene construction of the MapView render effect: white oversized
background, one path per indexed feature filled with the country color when
selected and the neutral default otherwise, one dot per city in the marker
color, and one label per city offset from its dot in the configured text
style. -/
def buildScene (features : List MapFeature) (props : MapViewProps)
    (width height : ℚ) : Scene :=
  { background := { x := -(width * 2), y := -(height * 2),
                    w := width * 5, h := height * 5, fill := "#ffffff" },
    countries := features.map (fun f =>
      { id := f.id,
        fill := if f.id ∈ props.selectedCountryIds then props.config.countryColor
                else "#e2e8f0" }),
    circles := props.cities.map (fun c =>
      { cx := (cityPoint width height c).1, cy := (cityPoint width height c).2,
        fill := props.config.cityPointColor }),
    labels := props.cities.map (fun c =>
      { x := (cityPoint width height c).1 + 7, y := (cityPoint width height c).2 + 4,
        text := cityName c, fill := props.config.textColor,
        fontFamily := props.config.fontFamily, fontSize := props.config.fontSize,
        noteLine := cityNote c }) }

/-- The d3 zoom transform (scale and translation) that d3 stores on the svg
DOM element; it survives removal of the svg children. -/
structure ViewTransform where
  k : ℚ
  x : ℚ
  y : ℚ
deriving DecidableEq

/-- The svg element referenced by svgRef: its current pixel size and the
scene drawn into it (none before the first successful render). -/
structure SvgView where
  width : ℚ
  height : ℚ
  scene : Option Scene

/-- MapView component state: the fetched geometry (none until the data-load
effect settles), the zoom transform held on the svg element, and the svg
element itself (none only when the component is not mounted). -/
structure MapViewState where
  worldData : Option (List MapFeature)
  zoom : ViewTransform
  svg : Option SvgView

/-- MapView render effect: it returns early unless the geometry has loaded
and the refs are attached; otherwise it clears the svg children and rebuilds
the whole scene from the current props and container size. It never writes
the zoom transform stored on the svg element. -/
def renderEffect (props : MapViewProps) (width height : ℚ)
    (mv : MapViewState) : MapViewState :=
  match mv.worldData, mv.svg with
  | some features, some _ =>
      { mv with svg := some { width := width, height := height,
                              scene := some (buildScene features props width height) } }
  | _, _ => mv

/-- Scale clamping of the d3 zoom behavior, scaleExtent [1, 15]. -/
def clampScale (k : ℚ) : ℚ :=
  max 1 (min 15 k)

/-- A pan/zoom gesture: the zoom handler stores the event transform, with the
scale clamped by the scale extent. This is the only writer of the zoom
transform. -/
def zoomGesture (mv : MapViewState) (t : ViewTransform) : MapViewState :=
  { mv with zoom := { k := clampScale t.k, x := t.x, y := t.y } }

/-- One canvas drawing operation of the export pipeline. -/
inductive DrawOp where
  | fillRect (fill : String) (x y w h : ℚ) : DrawOp
  | drawImage (content : Option Scene) (x y w h : ℚ) : DrawOp

/-- The raster image produced by exportToPng: the canvas dimensions and the
ordered drawing operations composited onto it. -/
structure ExportedImage where
  width : ℚ
  height : ℚ
  ops : List DrawOp

/-- The fixed scale factor of the export pipeline. -/
def exportScale : ℚ := 2

/-- MapView exportToPng: it returns early only when the svg ref is empty.
Otherwise it sizes a canvas to the svg bounding box times the scale factor,
fills it white, draws the serialized svg content over the fill, and triggers
the download (a some result is a triggered download). Note the guard reads
the svg ref, not the loaded geometry. -/
def exportToPng (mv : MapViewState) : Option ExportedImage :=
  match mv.svg with
  | none => none
  | some svg =>
      let w := svg.width * exportScale
      let h := svg.height * exportScale
      some { width := w, height := h,
             ops := [DrawOp.fillRect "white" 0 0 w h,
                     DrawOp.drawImage svg.scene 0 0 w h] }

/-- One record of the localization source: the common and official names, the
optional Chinese translations and the optional region. -/
structure CountryMeta where
  common : String
  official : String
  zhoCommon : Option String
  nativeZhoCommon : Option String
  region : Option String
deriving DecidableEq

/-- One entry of the selectable country list. -/
structure CountryEntry where
  id : String
  name : String
  continent : String
deriving DecidableEq

/-- CountrySelector per-feature mapping step: find the metadata record whose
common or official name matches the feature name, localize the display name
with fallback to the source name, and default the continent to Other. -/
def resolveEntry (meta : List CountryMeta) (g : MapFeature) : CountryEntry :=
  let m := meta.find? (fun r => r.common == g.name || r.official == g.name)
  { id := g.id,
    name := ((m.bind CountryMeta.zhoCommon).orElse
              (fun _ => m.bind CountryMeta.nativeZhoCommon)).getD g.name,
    continent := (m.bind CountryMeta.region).getD "Other" }

/-- CountrySelector data-load effect: filter out the Antarctica feature by id
code or name, map each remaining geometry to a localized entry, then sort by
the locale-aware comparator. The comparator depends on host locale data, so
it is a parameter; the sort is modelled as a merge sort by that comparator,
which like Array.prototype.sort only reorders entries. -/
def buildCountryList (cmp : CountryEntry → CountryEntry → Bool)
    (geoms : List MapFeature) (meta : List CountryMeta) : List CountryEntry :=
  ((geoms.filter (fun g => !(g.id == "010") && !(g.name == "Antarctica"))).map
    (resolveEntry meta)).mergeSort cmp

/- Fixtures for concrete evaluations. -/

/-- A session state with a pending input and no call in flight. -/
def sampleApp : AppState :=
  { selectedCountryIds := ∅, cities := [], cityInput := "Paris",
    isLocating := false, countryColor := "#f97316", cityColor := "#ef4444",
    textColor := "#1e293b", fontFamily := "sans-serif", fontSize := 12 }

/-- A parsed service result whose lat field is a string and whose lng field
is missing: JSON.parse accepts it although it is not a valid marker. -/
def badResult : Json :=
  Json.obj [("name", Json.str "Shanghai"), ("lat", Json.str "north")]

/-- A well-formed city marker. -/
def sampleCity : Json :=
  Json.obj [("name", Json.str "Tokyo"), ("lat", Json.num 35), ("lng", Json.num 139)]

/-- A session state already holding one marker. -/
def appWithCity : AppState :=
  { selectedCountryIds := ∅, cities := [sampleCity], cityInput := "Kyoto",
    isLocating := false, countryColor := "#f97316", cityColor := "#ef4444",
    textColor := "#1e293b", fontFamily := "sans-serif", fontSize := 12 }

/-- A MapView still waiting for its geometry fetch, with the svg element
already mounted (the svg is rendered unconditionally, so its ref is attached
from the first mount on). -/
def loadingMapView : MapViewState :=
  { worldData := none, zoom := { k := 1, x := 0, y := 0 },
    svg := some { width := 800, height := 450, scene := none } }

/-- A MapView with geometry loaded and the svg mounted. -/
def mountedMapView : MapViewState :=
  { worldData := some [], zoom := { k := 1, x := 0, y := 0 },
    svg := some { width := 640, height := 360, scene := none } }

/-- Claim C1, counterexample: with no geometry loaded but the svg element
mounted, exportToPng does not return early — it produces an image and
triggers a download, because its guard reads the svg ref and not the loaded
geometry. -/
theorem export_during_load_cex :
    loadingMapView.worldData = none ∧
    (exportToPng loadingMapView).isSome = true :=
  ⟨rfl, rfl⟩

/-- Claim C1, amended: the export operation is a no-op exactly when the svg
element is absent (component not mounted); a missing geometry load alone
does not block it, so a blank white file can be produced during load. -/
theorem export_noop_iff_svg_absent (mv : MapViewState) :
    exportToPng mv = none ↔ mv.svg = none := by
  rcases mv with ⟨wd, z, sv⟩
  cases sv <;> simp [exportToPng]

/-- Claim C2: each of the five style setters leaves the selection set and the
city marker sequence unchanged, and the full scene re-render they trigger
never writes the zoom transform stored on the svg element — the transform
persists across data and style changes and is written only by pan/zoom
gestures. -/
theorem style_change_frame (s : AppState) (v : String) (n : Int)
    (props : MapViewProps) (w h : ℚ) (mv : MapViewState) :
    ((setCountryColor s v).selectedCountryIds = s.selectedCountryIds ∧
      (setCountryColor s v).cities = s.cities) ∧
    ((setCityColor s v).selectedCountryIds = s.selectedCountryIds ∧
      (setCityColor s v).cities = s.cities) ∧
    ((setTextColor s v).selectedCountryIds = s.selectedCountryIds ∧
      (setTextColor s v).cities = s.cities) ∧
    ((setFontFamily s v).selectedCountryIds = s.selectedCountryIds ∧
      (setFontFamily s v).cities = s.cities) ∧
    ((setFontSize s n).selectedCountryIds = s.selectedCountryIds ∧
      (setFontSize s n).cities = s.cities) ∧
    (renderEffect props w h mv).zoom = mv.zoom := by
  refine ⟨⟨rfl, rfl⟩, ⟨rfl, rfl⟩, ⟨rfl, rfl⟩, ⟨rfl, rfl⟩, ⟨rfl, rfl⟩, ?_⟩
  rcases mv with ⟨wd, z, sv⟩
  cases wd <;> cases sv <;> rfl

/-- Claim C3, counterexample: handleAddCity appends the parsed service result
without checking lat or lng, so a result whose lat is a string and whose lng
is absent still enters the city sequence. -/
theorem latlng_validation_cex :
    (handleAddCity sampleApp (Except.ok badResult)).1.cities = [badResult] ∧
    hasNumericLatLng badResult = false :=
  ⟨rfl, rfl⟩

/-- Claim C3, amended: the caller performs no lat/lng validation; whenever
the guard passes and parsing succeeds, the parsed result is appended to the
city sequence exactly as parsed (and the input is cleared), regardless of
whether lat and lng are present or numeric. Only a service or parse failure
leaves the sequence unchanged. -/
theorem addCity_appends_unvalidated (s : AppState) (r : Json)
    (h1 : (jsTrim s.cityInput == "") = false) (h2 : s.isLocating = false) :
    (handleAddCity s (Except.ok r)).1.cities = s.cities ++ [r] ∧
    (handleAddCity s (Except.ok r)).1.cityInput = "" := by
  simp [handleAddCity, h1, h2]

/-- Witness for the amended claim C3 at a concrete state and a concrete
invalid result. -/
theorem addCity_appends_unvalidated_witness :
    (handleAddCity sampleApp (Except.ok badResult)).1.cities
        = sampleApp.cities ++ [badResult] ∧
    (handleAddCity sampleApp (Except.ok badResult)).1.cityInput = "" :=
  addCity_appends_unvalidated sampleApp badResult rfl rfl

/-- Claim C4: on every location-resolution failure (service error or
unparsable response) with the submit guard passed, an alert is shown, the
city sequence is exactly unchanged and the input text is not cleared. -/
theorem resolution_failure_frame (s : AppState)
    (h1 : (jsTrim s.cityInput == "") = false) (h2 : s.isLocating = false) :
    (handleAddCity s (Except.error ())).2 = true ∧
    (handleAddCity s (Except.error ())).1.cities = s.cities ∧
    (handleAddCity s (Except.error ())).1.cityInput = s.cityInput := by
  simp [handleAddCity, h1, h2]

/-- Witness for claim C4 at a concrete state. -/
theorem resolution_failure_frame_witness :
    (handleAddCity sampleApp (Except.error ())).2 = true ∧
    (handleAddCity sampleApp (Except.error ())).1.cities = sampleApp.cities ∧
    (handleAddCity sampleApp (Except.error ())).1.cityInput = sampleApp.cityInput :=
  resolution_failure_frame sampleApp rfl rfl

/-- Claim C5: toggling the same country id twice restores the original
selection membership exactly. -/
theorem toggleCountry_involutive (s : AppState) (id : String) :
    (handleToggleCountry (handleToggleCountry s id) id).selectedCountryIds
      = s.selectedCountryIds := by
  by_cases h : id ∈ s.selectedCountryIds
  · simp [handleToggleCountry, h, Finset.not_mem_erase, Finset.insert_erase h]
  · simp [handleToggleCountry, h, Finset.erase_insert h]

/-- Removing the appended last element by its index restores the list. -/
theorem removeIndex_append (cs : List Json) (m : Json) :
    removeIndex (cs ++ [m]) cs.length = cs := by
  have henum : (cs ++ [m]).enum = cs.enum ++ [(cs.length, m)] := by
    simpa [List.enum] using List.enumFrom_append cs [m] 0
  rw [removeIndex, henum, List.filter_append]
  have hkeep : cs.enum.filter (fun p => p.1 != cs.length) = cs.enum := by
    rw [List.filter_eq_self]
    intro a ha
    rw [List.mem_enum_iff_getElem?] at ha
    obtain ⟨hlt, -⟩ := List.getElem?_eq_some.1 ha
    simp only [bne_iff_ne, ne_eq]
    omega
  have hdrop : List.filter (fun p => p.1 != cs.length) [(cs.length, m)] = [] := by
    simp
  rw [hkeep, hdrop, List.append_nil, List.enum_map_snd]

/-- Claim C6: appending a marker through handleAddCity and then removing it
by its index (the prior length) restores the prior ordered city sequence
exactly. -/
theorem marker_roundtrip (s : AppState) (m : Json)
    (h1 : (jsTrim s.cityInput == "") = false) (h2 : s.isLocating = false) :
    (removeCity (handleAddCity s (Except.ok m)).1 s.cities.length).cities
      = s.cities := by
  simp [handleAddCity, h1, h2, removeCity, removeIndex_append s.cities m]

/-- Witness for claim C6 at a concrete state holding one marker. -/
theorem marker_roundtrip_witness :
    (removeCity (handleAddCity appWithCity (Except.ok badResult)).1
        appWithCity.cities.length).cities = appWithCity.cities :=
  marker_roundtrip appWithCity badResult rfl rfl

/-- Claim C7: the feature index built by MapView contains no feature with id
code 010 or name Antarctica, and every entry of the selectable country list
(for any locale comparator, geometry and metadata) has an id other than 010,
so such features are never rendered, selectable or hit-tested. -/
theorem antarctica_excluded :
    (∀ (features : List MapFeature) (f : MapFeature),
        f ∈ filterWorldFeatures features → f.id ≠ "010" ∧ f.name ≠ "Antarctica") ∧
    (∀ (cmp : CountryEntry → CountryEntry → Bool) (geoms : List MapFeature)
        (meta : List CountryMeta) (e : CountryEntry),
        e ∈ buildCountryList cmp geoms meta → e.id ≠ "010") := by
  constructor
  · intro features f hf
    have hp := (List.mem_filter.1 hf).2
    simp only [Bool.and_eq_true, Bool.not_eq_true', beq_eq_false_iff_ne, ne_eq] at hp
    exact hp
  · intro cmp geoms meta e he
    rw [buildCountryList, List.mem_mergeSort] at he
    obtain ⟨g, hg, rfl⟩ := List.mem_map.1 he
    have hp := (List.mem_filter.1 hg).2
    simp only [Bool.and_eq_true, Bool.not_eq_true', beq_eq_false_iff_ne, ne_eq] at hp
    simpa [resolveEntry] using hp.1

/-- Witness for claim C7 on a concrete two-feature source holding Antarctica
and one ordinary country. -/
theorem antarctica_excluded_witness :
    ((⟨"156", "China"⟩ : MapFeature).id ≠ "010" ∧
        (⟨"156", "China"⟩ : MapFeature).name ≠ "Antarctica") ∧
    (resolveEntry [] ⟨"156", "China"⟩).id ≠ "010" := by
  constructor
  · exact antarctica_excluded.1 [⟨"010", "Antarctica"⟩, ⟨"156", "China"⟩]
      ⟨"156", "China"⟩ (by decide)
  · exact antarctica_excluded.2 (fun _ _ => true)
      [⟨"010", "Antarctica"⟩, ⟨"156", "China"⟩] []
      (resolveEntry [] ⟨"156", "China"⟩) (List.mem_mergeSort.2 (by decide))

/-- Claim C8: for a fixed nonnegative viewport width, the projection is
monotone in each axis independently over the valid coordinate domain:
longitude never decreases x, latitude never increases y. -/
theorem project_monotone (w h lng1 lng2 lat1 lat2 : ℚ)
    (hw : 0 ≤ w)
    (_hlngLo : -180 ≤ lng1) (_hlngHi : lng2 ≤ 180) (hlng : lng1 ≤ lng2)
    (_hlatLo : -90 ≤ lat1) (_hlatHi : lat2 ≤ 90) (hlat : lat1 ≤ lat2) :
    projectX w lng1 ≤ projectX w lng2 ∧
    projectY w h lat2 ≤ projectY w h lat1 := by
  have hs : 0 ≤ w / 360 := by positivity
  constructor
  · unfold projectX
    have := mul_le_mul_of_nonneg_left hlng hs
    linarith
  · unfold projectY
    have := mul_le_mul_of_nonneg_left hlat hs
    linarith

/-- Witness for claim C8 at a concrete viewport and coordinate pairs. -/
theorem project_monotone_witness :
    projectX 800 (-10) ≤ projectX 800 20 ∧
    projectY 800 450 5 ≤ projectY 800 450 (-5) :=
  project_monotone 800 450 (-10) 20 (-5) 5 (by norm_num) (by norm_num)
    (by norm_num) (by norm_num) (by norm_num) (by norm_num) (by norm_num)

/-- Claim C9: exporting with the svg mounted produces an image of exactly
twice the on-screen svg dimensions in each axis, whose first drawing
operation fills the whole canvas opaque white and whose second draws the
serialized vector content over it. -/
theorem export_dimensions (mv : MapViewState) (svg : SvgView)
    (h : mv.svg = some svg) :
    exportToPng mv = some
      { width := svg.width * 2, height := svg.height * 2,
        ops := [DrawOp.fillRect "white" 0 0 (svg.width * 2) (svg.height * 2),
                DrawOp.drawImage svg.scene 0 0 (svg.width * 2) (svg.height * 2)] } := by
  rcases mv with ⟨wd, z, sv⟩
  cases sv with
  | none => cases h
  | some s0 =>
      cases h
      simp [exportToPng, exportScale]

/-- Witness for claim C9 at a concrete mounted view of size 640 by 360. -/
theorem export_dimensions_witness :
    exportToPng mountedMapView = some
      { width := (640 : ℚ) * 2, height := (360 : ℚ) * 2,
        ops := [DrawOp.fillRect "white" 0 0 ((640 : ℚ) * 2) ((360 : ℚ) * 2),
                DrawOp.drawImage none 0 0 ((640 : ℚ) * 2) ((360 : ℚ) * 2)] } :=
  export_dimensions mountedMapView { width := 640, height := 360, scene := none } rfl

/-- Claim C10: the clear-all operation resets the selection set and the city
sequence to empty in one step while leaving the five style values and the
pending input text unchanged. -/
theorem clearAll_frame (s : AppState) :
    (clearAll s).selectedCountryIds = ∅ ∧ (clearAll s).cities = [] ∧
    (clearAll s).countryColor = s.countryColor ∧
    (clearAll s).cityColor = s.cityColor ∧
    (clearAll s).textColor = s.textColor ∧
    (clearAll s).fontFamily = s.fontFamily ∧
    (clearAll s).fontSize = s.fontSize ∧
    (clearAll s).cityInput = s.cityInput :=
  ⟨rfl, rfl, rfl, rfl, rfl, rfl, rfl, rfl⟩
